import Mathlib

/-!
Shallow embedding of `src/self_upgrading_client.py` (EphemeralEon/mqtt-client).

The program is a self-upgrading agent: an infinite loop (source lines 146-187)
that pulls a candidate version of its own file from a git remote, fingerprints
the candidate and compares it with an in-memory fingerprint of the running
file, validates the candidate syntactically, records failed candidates in a
JSON ledger, and on a valid differing candidate backs up the running file,
copies the candidate over it, and re-executes the process.

Modelling choices, all read directly off the source:
* File contents are byte sequences (`Content := List Nat`); a file that may be
  absent is an `Option Content` (`none` = the path does not exist).
* The SHA-256 hex digest is an abstract parameter `hash : Content → Fp`
  (`Fp := String`, the hexdigest): every theorem quantifies over it, since the
  program only ever applies it to whole file contents and compares the results.
* `ast.parse` success is an abstract parameter `parses : Content → Bool`.
* I/O exceptions are injected through a `Faults` record: one flag per
  fallible operation of a tick.  Python `try`/`except` blocks become explicit
  `Except` values (`*_body` / `*_attempt` definitions) with the handler applied
  on top, so "returns a value instead of raising" is visible in the model.
* The ledger file `failed_update.json` is `Option LedgerFile`: absent, a JSON
  record `{"checksum": ...}`, or malformed (not valid JSON).  Python's
  `open(path, "w")` truncates the file before `json.dump` writes it, which the
  model keeps: a write failure after a successful open leaves `malformed`.
* One iteration of the `while True:` loop is the function `tick`.  The mutable
  in-process state (`current_checksum`, `failed_checksum`, the sent e-mails and
  the number of validator invocations as ghost instrumentation) is an
  `AgentState`.  `failed_checksum` is loaded once before the loop (line 144)
  and never reassigned inside it, which `tick` reproduces faithfully.
-/

namespace SelfUpgradingClient

/-- Byte content of a file. -/
abbrev Content := List Nat

/-- A fingerprint: the hex digest string produced by `hashlib.sha256(...).hexdigest()`. -/
abbrev Fp := String

/-- The on-disk state of `failed_update.json` when the file exists: either a
readable JSON record whose `"checksum"` field is `fp` (`json.load` then
`data.get("checksum")`, which is `None` when the field is missing or null), or
malformed content on which `json.load` raises `JSONDecodeError`. -/
inductive LedgerFile
  | record (fp : Option Fp)
  | malformed
deriving DecidableEq, Repr

/-- The file system as the program sees it: the running file
`self_upgrading_client.py`, the candidate `repo/self_upgrading_client.py`,
the backup `self_upgrading_client_backup.py`, and `failed_update.json`. -/
structure FS where
  running : Option Content
  candidate : Option Content
  backup : Option Content
  ledger : Option LedgerFile
deriving DecidableEq, Repr

/-- Which fallible operations of one tick raise an I/O exception.  `none`
contents already model `FileNotFoundError`; these flags model the remaining
`except Exception` causes (permission errors, disk errors, decode errors). -/
structure Faults where
  pullFails : Bool
  readRunningFails : Bool
  readCandidateFails : Bool
  validateReadFails : Bool
  ledgerOpenFails : Bool
  ledgerWriteFails : Bool
  backupCopyFails : Bool
  applyCopyFails : Bool
  execFails : Bool
deriving DecidableEq, Repr

/-- A tick with no I/O faults. -/
def noFaults : Faults :=
  ⟨false, false, false, false, false, false, false, false, false⟩

/-- `get_checksum` (source lines 60-69): read the file fully and return the hex
digest of its content; return `None` on `FileNotFoundError` (the file is
absent) and on any other read error. -/
def get_checksum (hash : Content → Fp) (file : Option Content) (readFails : Bool) :
    Option Fp :=
  match file with
  | none => none
  | some c => if readFails then none else some (hash c)

/-- Exceptions the validator's `try` body can raise. -/
inductive PyErr
  | parseError
  | readError
deriving DecidableEq, Repr

/-- The `try` body of `is_valid_python` (source lines 72-74): open the file,
read it, `ast.parse` the text.  A missing or unreadable file raises a read
error; text that does not parse raises `SyntaxError`. -/
def is_valid_python_body (parses : Content → Bool) (file : Option Content)
    (readFails : Bool) : Except PyErr Unit :=
  match file with
  | none => .error .readError
  | some c =>
    if readFails then .error .readError
    else if parses c then .ok () else .error .parseError

/-- `is_valid_python` (source lines 71-82): the body with both `except`
handlers applied; each handler logs and returns `False`. -/
def is_valid_python (parses : Content → Bool) (file : Option Content)
    (readFails : Bool) : Bool :=
  match is_valid_python_body parses file readFails with
  | .ok _ => true
  | .error .parseError => false
  | .error .readError => false

/-- The validator as a state transformer over the file system: its only
file-system operation is the read of the candidate file (source lines 73-74),
so the file system comes back unchanged next to the verdict. -/
def is_valid_python_fs (parses : Content → Bool) (fs : FS) (readFails : Bool) :
    Bool × FS :=
  (is_valid_python parses fs.candidate readFails, fs)

/-- The `try` body of `load_failed_update` (source lines 85-90): if the ledger
file exists, read it, `json.load` it and return `data.get("checksum")`;
otherwise return `None`.  Malformed JSON raises `JSONDecodeError`, an
unreadable file raises an I/O error. -/
def load_failed_update_body (ledger : Option LedgerFile) (readFails : Bool) :
    Except PyErr (Option Fp) :=
  match ledger with
  | none => .ok none
  | some lf =>
    if readFails then .error .readError
    else
      match lf with
      | .record fp => .ok fp
      | .malformed => .error .parseError

/-- `load_failed_update` (source lines 84-96): the body with both `except`
handlers applied; each handler logs and returns `None`. -/
def load_failed_update (ledger : Option LedgerFile) (readFails : Bool) :
    Option Fp :=
  match load_failed_update_body ledger readFails with
  | .ok fp => fp
  | .error .parseError => none
  | .error .readError => none

/-- The `try` body of `save_failed_update` (source lines 99-102) as a state
transformer that can raise: `open(FAILED_UPDATE_FILE, "w")` truncates the file
on success, then `json.dump` writes the record.  If the open itself raises the
prior content is untouched; if the dump raises after a successful open the file
is left truncated or partially written, i.e. malformed. -/
def save_failed_update_attempt (fp : Fp) (ledger : Option LedgerFile)
    (openFails writeFails : Bool) : Except Unit Unit × Option LedgerFile :=
  if openFails then (.error (), ledger)
  else if writeFails then (.error (), some .malformed)
  else (.ok (), some (.record (some fp)))

/-- `save_failed_update` (source lines 98-104): the attempt with the
`except Exception` handler applied — the exception is logged and swallowed,
the file system is left as the attempt left it. -/
def save_failed_update (fp : Fp) (ledger : Option LedgerFile)
    (openFails writeFails : Bool) : Option LedgerFile :=
  (save_failed_update_attempt fp ledger openFails writeFails).2

/-- The supervisor's in-process state across loop iterations: the file system,
the in-memory `current_checksum` (line 143, reassigned only at line 182), the
in-memory `failed_checksum` (line 144, never reassigned inside the loop), plus
ghost instrumentation: the subjects of the e-mails sent so far and how often
`is_valid_python` has been invoked. -/
structure AgentState where
  fs : FS
  currentChecksum : Option Fp
  failedChecksum : Option Fp
  emails : List String
  validatorCalls : Nat
deriving DecidableEq, Repr

/-- How one iteration of the `while True:` loop ends. -/
inductive TickOutcome
  | pullFailed
  | candidateMissing
  | skippedKnownFailed
  | rejected
  | restarted
  | applyFailed
  | execFailed
  | noChange
deriving DecidableEq, Repr

/-- One iteration of the main loop (source lines 146-187).  `remote` is the
content the git remote holds for `self_upgrading_client.py` (`none` if the
file is absent from the repository): a successful pull makes the local
candidate file equal to it.  Faults raise exceptions exactly where the source
can raise them; exceptions not handled inside the iteration body are caught by
the `except` clauses at lines 183-186 and end the tick. -/
def tick (hash : Content → Fp) (parses : Content → Bool) (f : Faults)
    (remote : Option Content) (σ : AgentState) : TickOutcome × AgentState :=
  if f.pullFails then
    -- line 148 raises GitCommandError; lines 183-184 log it, line 187 sleeps
    (.pullFailed, σ)
  else
    let fs1 : FS := { σ.fs with candidate := remote }
    let σ1 : AgentState := { σ with fs := fs1 }
    match remote with
    | none =>
      -- lines 150-153: update file not found, sleep, continue
      (.candidateMissing, σ1)
    | some cand =>
      let newCk := get_checksum hash (some cand) f.readCandidateFails
      -- line 156: `if new_checksum and current_checksum and new_checksum != current_checksum`
      match newCk, σ.currentChecksum with
      | some n, some c =>
        if n ≠ c then
          if some n = σ.failedChecksum then
            -- lines 157-160: skip previously failed update, sleep, continue
            (.skippedKnownFailed, σ1)
          else
            -- lines 162-163: log, send "Client Update Started"
            let σ2 : AgentState :=
              { σ1 with
                emails := σ1.emails ++ ["Client Update Started"],
                validatorCalls := σ1.validatorCalls + 1 }
            if ¬ is_valid_python parses (some cand) f.validateReadFails then
              -- lines 165-170: notify failure, save ledger, sleep, continue
              let ledger2 :=
                save_failed_update n fs1.ledger f.ledgerOpenFails f.ledgerWriteFails
              (.rejected,
                { σ2 with
                  emails := σ2.emails ++ ["Client Update Failed"],
                  fs := { fs1 with ledger := ledger2 } })
            else
              -- lines 172-179: backup (only if the running file exists), copy, execv
              match fs1.running with
              | some _ =>
                if f.backupCopyFails then (.applyFailed, σ2)
                else
                  let σ3 : AgentState := { σ2 with fs := { fs1 with backup := fs1.running } }
                  if f.applyCopyFails then (.applyFailed, σ3)
                  else
                    let σ4 : AgentState :=
                      { σ3 with fs := { σ3.fs with running := some cand } }
                    if f.execFails then (.execFailed, σ4) else (.restarted, σ4)
              | none =>
                if f.applyCopyFails then (.applyFailed, σ2)
                else
                  let σ4 : AgentState := { σ2 with fs := { fs1 with running := some cand } }
                  if f.execFails then (.execFailed, σ4) else (.restarted, σ4)
        else
          -- lines 180-182: "No update needed", recompute current_checksum
          (.noChange,
            { σ1 with currentChecksum := get_checksum hash fs1.running f.readRunningFails })
      | _, _ =>
        (.noChange,
          { σ1 with currentChecksum := get_checksum hash fs1.running f.readRunningFails })

/-! ### Concrete instantiations used by witnesses and counterexamples

`lenHash` stands in for the SHA-256 hex digest on concrete inputs (any
function of the content will do, since the program only applies the digest to
whole contents and compares the results), and `parsesShort` stands in for
`ast.parse` success. -/

/-- A concrete digest for evaluating the model: the decimal length of the content. -/
def lenHash : Content → Fp := fun c => toString c.length

/-- A concrete parse predicate for evaluating the model: contents of length at
most one parse, longer contents raise `SyntaxError`. -/
def parsesShort : Content → Bool := fun c => Nat.ble c.length 1

/-! ### Claim C1 -/

/-- Startup state for the C1 scenario: running file `[0]` (digest `"1"`,
computed at line 143), no ledger file so `failed_checksum = None` (line 144),
no e-mails sent, validator never invoked. -/
def c1Start : AgentState := ⟨⟨some [0], none, none, none⟩, some "1", none, [], 0⟩

/-- First tick of the C1 scenario: the remote supplies candidate `[0, 1]`
(digest `"2"`), which does not parse. -/
def c1Tick1 : TickOutcome × AgentState :=
  tick lenHash parsesShort noFaults (some [0, 1]) c1Start

/-- Second tick of the C1 scenario, with the candidate unchanged. -/
def c1Tick2 : TickOutcome × AgentState :=
  tick lenHash parsesShort noFaults (some [0, 1]) c1Tick1.2

/-- Claim C1 (code bug, evaluated at the failing input): a fresh start with
running file `[0]` and an invalid candidate `[0, 1]` whose digest `"2"` differs
from the running digest and from the (absent) stored failed fingerprint.  The
first tick rejects the candidate and the ledger then loads as `"2"`, exactly as
the claim says — but the second tick with the candidate unchanged is rejected
again: the validator runs a second time and both notifications are re-sent,
because `failed_checksum` is read into memory once before the loop (line 144)
and never updated after `save_failed_update` (line 168), so the skip guard at
line 157 compares against a stale value.  The claim requires the second tick to
be a no-change/skip with no validator call and no notification. -/
theorem c1_stale_failed_checksum_revalidates :
    c1Tick1.1 = .rejected ∧
    load_failed_update c1Tick1.2.fs.ledger false = some "2" ∧
    c1Tick2.1 = .rejected ∧
    c1Tick2.1 ≠ .skippedKnownFailed ∧
    c1Tick2.1 ≠ .noChange ∧
    c1Tick2.2.validatorCalls = 2 ∧
    c1Tick2.2.emails = ["Client Update Started", "Client Update Failed",
      "Client Update Started", "Client Update Failed"] := by
  decide

/-! ### Claim C2 -/

/-- State for the C2 counterexample: the running file was replaced manually
with `[0, 0, 0]` (digest `"3"`) after the supervisor computed its in-memory
fingerprint `"1"`, so the in-memory value is stale. -/
def c2Start : AgentState := ⟨⟨some [0, 0, 0], none, none, none⟩, some "1", none, [], 0⟩

/-- The C2 counterexample tick: candidate `[0, 1]` (digest `"2"`), invalid. -/
def c2Tick : TickOutcome × AgentState :=
  tick lenHash parsesShort noFaults (some [0, 1]) c2Start

/-- Claim C2, counterexample: a tick whose outcome is Rejected does not
recompute the in-memory current fingerprint from the running file — the
rejected path at lines 165-170 ends in `continue`, bypassing the reassignment
at line 182.  Here the tick rejects the candidate but leaves the in-memory
fingerprint at the stale `"1"` instead of the running file's `"3"`. -/
theorem c2_rejected_tick_keeps_stale_fingerprint :
    c2Tick.1 = .rejected ∧
    c2Tick.2.currentChecksum = some "1" ∧
    get_checksum lenHash c2Tick.2.fs.running false = some "3" ∧
    c2Tick.2.currentChecksum ≠ get_checksum lenHash c2Tick.2.fs.running false := by
  decide

/-- Claim C2 as amended: only a tick whose outcome is NoChange (the `else`
branch of the compare guard, lines 180-182) recomputes the in-memory current
fingerprint from the running file before sleeping; ticks that end in the
known-failed skip (lines 157-160) or in Rejected (lines 165-170) `continue`
past the reassignment and leave the in-memory fingerprint unchanged. -/
theorem c2_only_nochange_tick_refreshes_fingerprint (hash : Content → Fp)
    (parses : Content → Bool) (f : Faults) (remote : Option Content) (σ : AgentState) :
    ((tick hash parses f remote σ).1 = .noChange →
      (tick hash parses f remote σ).2.currentChecksum =
        get_checksum hash (tick hash parses f remote σ).2.fs.running f.readRunningFails) ∧
    ((tick hash parses f remote σ).1 = .skippedKnownFailed ∨
        (tick hash parses f remote σ).1 = .rejected →
      (tick hash parses f remote σ).2.currentChecksum = σ.currentChecksum) := by
  by_cases hp : f.pullFails = true
  · simp [tick, hp]
  · simp only [Bool.not_eq_true] at hp
    rcases remote with _ | cand
    · simp [tick, hp]
    · rcases hn : get_checksum hash (some cand) f.readCandidateFails with _ | n
      · simp [tick, hp, hn]
      · rcases hc : σ.currentChecksum with _ | c
        · simp [tick, hp, hn, hc]
        · by_cases hne : n = c
          · simp [tick, hp, hn, hc, hne]
          · by_cases hf : some n = σ.failedChecksum
            · simp [tick, hp, hn, hc, hne, ← hf]
            · by_cases hv : is_valid_python parses (some cand) f.validateReadFails = true
              · rcases hrun : σ.fs.running with _ | r <;>
                  rcases hb : f.backupCopyFails <;>
                  rcases ha : f.applyCopyFails <;>
                  rcases he : f.execFails <;>
                  simp [tick, hp, hn, hc, hne, hf, hv, hrun, hb, ha, he]
              · simp only [Bool.not_eq_true] at hv
                simp [tick, hp, hn, hc, hne, hf, hv]

/-- State for the NoChange half of the C2 witness: running file `[0]`, fresh
in-memory fingerprint `"1"`, candidate identical. -/
def c2NoChangeState : AgentState := ⟨⟨some [0], none, none, none⟩, some "1", none, [], 0⟩

/-- State for the skip half of the C2 witness: the stored failed fingerprint
`"2"` equals the candidate digest. -/
def c2SkipState : AgentState := ⟨⟨some [0], none, none, some (.record (some "2"))⟩,
  some "1", some "2", [], 0⟩

/-- Witness for the amended C2 theorem at concrete inputs: a NoChange tick
refreshes the in-memory fingerprint, and a skip tick leaves it unchanged. -/
theorem c2_only_nochange_tick_refreshes_fingerprint_witness :
    (tick lenHash parsesShort noFaults (some [0]) c2NoChangeState).2.currentChecksum =
      get_checksum lenHash
        (tick lenHash parsesShort noFaults (some [0]) c2NoChangeState).2.fs.running
        noFaults.readRunningFails ∧
    (tick lenHash parsesShort noFaults (some [0, 1]) c2SkipState).2.currentChecksum =
      c2SkipState.currentChecksum :=
  ⟨(c2_only_nochange_tick_refreshes_fingerprint lenHash parsesShort noFaults
      (some [0]) c2NoChangeState).1 (by decide),
   (c2_only_nochange_tick_refreshes_fingerprint lenHash parsesShort noFaults
      (some [0, 1]) c2SkipState).2 (Or.inl (by decide))⟩

/-! ### Claim C3 -/

/-- Claim C3: for a valid candidate whose digest differs from the running
file's (and is not the stored failed fingerprint), a successful apply leaves
the backup equal to the pre-update running content and the running file equal
to the candidate; and the backup copy happens strictly before the overwrite —
if the overwrite itself fails, the backup is already in place while the
running file is still untouched. -/
theorem c3_apply_backs_up_then_replaces (hash : Content → Fp)
    (parses : Content → Bool) (f : Faults) (σ : AgentState) (cand run : Content)
    (hpull : f.pullFails = false) (hrcf : f.readCandidateFails = false)
    (hrun : σ.fs.running = some run)
    (hcur : σ.currentChecksum = some (hash run))
    (hdiff : hash cand ≠ hash run)
    (hnf : some (hash cand) ≠ σ.failedChecksum)
    (hvr : f.validateReadFails = false) (hparse : parses cand = true)
    (hb : f.backupCopyFails = false) (ha : f.applyCopyFails = false)
    (he : f.execFails = false) :
    (tick hash parses f (some cand) σ).1 = .restarted ∧
    (tick hash parses f (some cand) σ).2.fs.backup = some run ∧
    (tick hash parses f (some cand) σ).2.fs.running = some cand ∧
    (tick hash parses { f with applyCopyFails := true } (some cand) σ).2.fs.backup = some run ∧
    (tick hash parses { f with applyCopyFails := true } (some cand) σ).2.fs.running = some run := by
  simp [tick, get_checksum, is_valid_python, is_valid_python_body, hpull, hrcf,
    hrun, hcur, hdiff, hnf, hvr, hparse, hb, ha, he]

/-- Pre-update state for the C3 witness: running file `[0, 0]` (digest `"2"`),
fresh in-memory fingerprint, no known failure. -/
def c3State : AgentState := ⟨⟨some [0, 0], none, none, none⟩, some "2", none, [], 0⟩

/-- Witness for C3 at concrete inputs: valid candidate `[5]` (digest `"1"`),
running file `[0, 0]` (digest `"2"`). -/
theorem c3_apply_backs_up_then_replaces_witness :
    (tick lenHash parsesShort noFaults (some [5]) c3State).1 = .restarted ∧
    (tick lenHash parsesShort noFaults (some [5]) c3State).2.fs.backup = some [0, 0] ∧
    (tick lenHash parsesShort noFaults (some [5]) c3State).2.fs.running = some [5] :=
  ⟨(c3_apply_backs_up_then_replaces lenHash parsesShort noFaults c3State [5] [0, 0]
      rfl rfl rfl (by decide) (by decide) (by decide) rfl (by decide) rfl rfl rfl).1,
   (c3_apply_backs_up_then_replaces lenHash parsesShort noFaults c3State [5] [0, 0]
      rfl rfl rfl (by decide) (by decide) (by decide) rfl (by decide) rfl rfl rfl).2.1,
   (c3_apply_backs_up_then_replaces lenHash parsesShort noFaults c3State [5] [0, 0]
      rfl rfl rfl (by decide) (by decide) (by decide) rfl (by decide) rfl rfl rfl).2.2.1⟩

/-! ### Claim C4 -/

/-- Claim C4: if the apply attempt fails at the backup step (the copy of the
running file to the backup path raises, line 175), the exception is caught at
line 185 and the running file's content is byte-for-byte unchanged from before
the attempt. -/
theorem c4_backup_failure_leaves_running_unchanged (hash : Content → Fp)
    (parses : Content → Bool) (f : Faults) (σ : AgentState) (cand run : Content)
    (hpull : f.pullFails = false) (hrcf : f.readCandidateFails = false)
    (hrun : σ.fs.running = some run)
    (hcur : σ.currentChecksum = some (hash run))
    (hdiff : hash cand ≠ hash run)
    (hnf : some (hash cand) ≠ σ.failedChecksum)
    (hvr : f.validateReadFails = false) (hparse : parses cand = true)
    (hb : f.backupCopyFails = true) :
    (tick hash parses f (some cand) σ).1 = .applyFailed ∧
    (tick hash parses f (some cand) σ).2.fs.running = some run := by
  simp [tick, get_checksum, is_valid_python, is_valid_python_body, hpull, hrcf,
    hrun, hcur, hdiff, hnf, hvr, hparse, hb]

/-- Faults for the C4 witness: only the backup copy raises. -/
def c4Faults : Faults := { noFaults with backupCopyFails := true }

/-- Witness for C4 at concrete inputs: the backup copy fails and the running
file keeps its pre-update content `[0, 0]`. -/
theorem c4_backup_failure_leaves_running_unchanged_witness :
    (tick lenHash parsesShort c4Faults (some [5]) c3State).1 = .applyFailed ∧
    (tick lenHash parsesShort c4Faults (some [5]) c3State).2.fs.running = some [0, 0] :=
  c4_backup_failure_leaves_running_unchanged lenHash parsesShort c4Faults c3State
    [5] [0, 0] rfl rfl rfl (by decide) (by decide) (by decide) rfl (by decide) rfl

/-! ### Claim C5 -/

/-- Claim C5: when the apply step fails with an I/O error during backup or
copy, the tick ends with the exception logged (lines 185-186) and neither the
on-disk ledger nor the in-memory failed fingerprint records the candidate, so
a following tick with the same candidate and working I/O applies it. -/
theorem c5_apply_failure_not_recorded_and_retried (hash : Content → Fp)
    (parses : Content → Bool) (f : Faults) (σ : AgentState) (cand run : Content)
    (hpull : f.pullFails = false) (hrcf : f.readCandidateFails = false)
    (hrun : σ.fs.running = some run)
    (hcur : σ.currentChecksum = some (hash run))
    (hdiff : hash cand ≠ hash run)
    (hnf : some (hash cand) ≠ σ.failedChecksum)
    (hvr : f.validateReadFails = false) (hparse : parses cand = true)
    (hfail : f.backupCopyFails = true ∨ (f.backupCopyFails = false ∧ f.applyCopyFails = true)) :
    (tick hash parses f (some cand) σ).1 = .applyFailed ∧
    (tick hash parses f (some cand) σ).2.fs.ledger = σ.fs.ledger ∧
    (tick hash parses f (some cand) σ).2.failedChecksum = σ.failedChecksum ∧
    load_failed_update (tick hash parses f (some cand) σ).2.fs.ledger false =
      load_failed_update σ.fs.ledger false ∧
    (tick hash parses noFaults (some cand) (tick hash parses f (some cand) σ).2).1 =
      .restarted := by
  rcases hfail with hb | ⟨hb, ha⟩
  · simp [tick, get_checksum, is_valid_python, is_valid_python_body, noFaults,
      hpull, hrcf, hrun, hcur, hdiff, hnf, hvr, hparse, hb]
  · simp [tick, get_checksum, is_valid_python, is_valid_python_body, noFaults,
      hpull, hrcf, hrun, hcur, hdiff, hnf, hvr, hparse, hb, ha]

/-- Faults for the C5 witness: only the overwrite copy raises. -/
def c5Faults : Faults := { noFaults with applyCopyFails := true }

/-- Witness for C5 at concrete inputs: the overwrite fails, nothing is
recorded as failed, and a clean retry tick applies the update. -/
theorem c5_apply_failure_not_recorded_and_retried_witness :
    (tick lenHash parsesShort c5Faults (some [5]) c3State).1 = .applyFailed ∧
    (tick lenHash parsesShort c5Faults (some [5]) c3State).2.fs.ledger = c3State.fs.ledger ∧
    (tick lenHash parsesShort noFaults (some [5])
        (tick lenHash parsesShort c5Faults (some [5]) c3State).2).1 = .restarted :=
  ⟨(c5_apply_failure_not_recorded_and_retried lenHash parsesShort c5Faults c3State
      [5] [0, 0] rfl rfl rfl (by decide) (by decide) (by decide) rfl (by decide)
      (Or.inr ⟨rfl, rfl⟩)).1,
   (c5_apply_failure_not_recorded_and_retried lenHash parsesShort c5Faults c3State
      [5] [0, 0] rfl rfl rfl (by decide) (by decide) (by decide) rfl (by decide)
      (Or.inr ⟨rfl, rfl⟩)).2.1,
   (c5_apply_failure_not_recorded_and_retried lenHash parsesShort c5Faults c3State
      [5] [0, 0] rfl rfl rfl (by decide) (by decide) (by decide) rfl (by decide)
      (Or.inr ⟨rfl, rfl⟩)).2.2.2.2⟩

/-! ### Claim C6 -/

/-- Claim C6: the validator returns `False` as a value — never a propagated
exception — on every parse failure and on every read failure (including an
absent file), its verdict is a function of the candidate file's content and
read outcome alone, and it has no side effect on the file system (its only
operation is the read). -/
theorem c6_validator_returns_value_and_is_pure (parses : Content → Bool)
    (file : Option Content) (readFails : Bool) (fs : FS) :
    (∀ e : PyErr, is_valid_python_body parses file readFails = .error e →
      is_valid_python parses file readFails = false) ∧
    (file = none ∨ readFails = true →
      is_valid_python parses file readFails = false) ∧
    (∀ c : Content, file = some c → parses c = false →
      is_valid_python parses file readFails = false) ∧
    (is_valid_python_fs parses fs readFails).2 = fs ∧
    (∀ fs' : FS, fs.candidate = fs'.candidate →
      (is_valid_python_fs parses fs readFails).1 =
        (is_valid_python_fs parses fs' readFails).1) := by
  refine ⟨?_, ?_, ?_, rfl, ?_⟩
  · intro e he
    rcases e with _ | _ <;> simp [is_valid_python, he]
  · rintro (h | h) <;> rcases file with _ | c <;>
      simp_all [is_valid_python, is_valid_python_body]
  · rintro c rfl hbad
    rcases readFails with _ | _ <;> simp [is_valid_python, is_valid_python_body, hbad]
  · intro fs' hc
    simp [is_valid_python_fs, hc]

/-- Witness for C6 at concrete inputs: an absent file and a non-parsing
content both get the verdict `False` as a value. -/
theorem c6_validator_returns_value_and_is_pure_witness :
    is_valid_python parsesShort none false = false ∧
    is_valid_python parsesShort (some [0, 1]) false = false :=
  ⟨(c6_validator_returns_value_and_is_pure parsesShort none false
      ⟨none, none, none, none⟩).1 .readError rfl,
   (c6_validator_returns_value_and_is_pure parsesShort (some [0, 1]) false
      ⟨none, none, none, none⟩).2.2.1 [0, 1] rfl rfl⟩

/-! ### Claim C7 -/

/-- Claim C7: the fingerprint operation is deterministic — it depends only on
the file's byte content (and the read outcome), so identical contents give
identical fingerprints — a successful read yields the digest of the full
content, and every read failure (absent file or I/O error) yields the explicit
error value `None`, which no real fingerprint `some fp` can equal. -/
theorem c7_fingerprint_deterministic_and_explicit_error (hash : Content → Fp) :
    (∀ (c₁ c₂ : Content) (rf₁ rf₂ : Bool), c₁ = c₂ → rf₁ = rf₂ →
      get_checksum hash (some c₁) rf₁ = get_checksum hash (some c₂) rf₂) ∧
    (∀ c : Content, get_checksum hash (some c) false = some (hash c)) ∧
    (∀ (file : Option Content) (rf : Bool),
      get_checksum hash file rf = none ↔ file = none ∨ rf = true) := by
  refine ⟨?_, fun c => rfl, ?_⟩
  · rintro c₁ c₂ rf₁ rf₂ rfl rfl
    rfl
  · rintro (_ | c) (_ | _) <;> simp [get_checksum]

/-- Witness for C7 at concrete inputs: identical contents give identical
fingerprints, and a failed read gives `None`. -/
theorem c7_fingerprint_deterministic_and_explicit_error_witness :
    get_checksum lenHash (some [0]) false = get_checksum lenHash (some [0]) false ∧
    get_checksum lenHash (some [0]) true = none :=
  ⟨(c7_fingerprint_deterministic_and_explicit_error lenHash).1 [0] [0] false false rfl rfl,
   ((c7_fingerprint_deterministic_and_explicit_error lenHash).2.2 (some [0]) true).2
     (Or.inr rfl)⟩

/-! ### Claim C8 -/

/-- Claim C8: `load_failed_update` returns `None` — as a value, its `except`
handlers never let an exception propagate — whenever the ledger file is
absent, malformed, or unreadable; and a fault-free `save_failed_update`
unconditionally overwrites whatever record was there with the single new
fingerprint, which a subsequent load returns. -/
theorem c8_ledger_load_robust_save_overwrites (ledger : Option LedgerFile) (rf : Bool) :
    load_failed_update none rf = none ∧
    load_failed_update (some .malformed) rf = none ∧
    (∀ lf : LedgerFile, load_failed_update (some lf) true = none) ∧
    (∀ e : PyErr, load_failed_update_body ledger rf = .error e →
      load_failed_update ledger rf = none) ∧
    (∀ (fp : Fp) (prior : Option LedgerFile),
      save_failed_update fp prior false false = some (.record (some fp))) ∧
    (∀ (fp : Fp) (prior : Option LedgerFile),
      load_failed_update (save_failed_update fp prior false false) false = some fp) := by
  refine ⟨rfl, ?_, ?_, ?_, fun fp prior => rfl, fun fp prior => rfl⟩
  · rcases rf with _ | _ <;> rfl
  · rintro (fp | _) <;> rfl
  · intro e he
    rcases e with _ | _ <;> simp [load_failed_update, he]

/-- Witness for C8 at concrete inputs: a malformed ledger loads as `None` (the
raised `JSONDecodeError` is caught), and saving over any prior record leaves
exactly the one new fingerprint. -/
theorem c8_ledger_load_robust_save_overwrites_witness :
    load_failed_update (some .malformed) false = none ∧
    save_failed_update "2" (some (.record (some "9"))) false false =
      some (.record (some "2")) :=
  ⟨(c8_ledger_load_robust_save_overwrites (some .malformed) false).2.2.2.1
      .parseError rfl,
   (c8_ledger_load_robust_save_overwrites (some .malformed) false).2.2.2.2.1
      "2" (some (.record (some "9")))⟩

/-! ### Claim C9 -/

/-- Claim C9: when the supervisor's in-memory fingerprint is the running
file's fingerprint (as the fingerprinter obtains it) and either the running
and candidate contents are identical or one of the two fingerprints is
unobtainable, the tick takes the compare guard's `else` branch: the outcome is
NoChange, no e-mail is sent, the validator is not invoked, the ledger file is
untouched — and a second tick under the same conditions is NoChange again. -/
theorem c9_comparing_identical_or_unobtainable_nochange (hash : Content → Fp)
    (parses : Content → Bool) (f : Faults) (σ : AgentState) (cand : Content)
    (hpull : f.pullFails = false)
    (hfresh : σ.currentChecksum = get_checksum hash σ.fs.running f.readRunningFails)
    (hcase : (σ.fs.running = some cand ∧ f.readCandidateFails = f.readRunningFails) ∨
      get_checksum hash (some cand) f.readCandidateFails = none ∨
      σ.currentChecksum = none) :
    (tick hash parses f (some cand) σ).1 = .noChange ∧
    (tick hash parses f (some cand) σ).2.emails = σ.emails ∧
    (tick hash parses f (some cand) σ).2.validatorCalls = σ.validatorCalls ∧
    (tick hash parses f (some cand) σ).2.fs.ledger = σ.fs.ledger ∧
    (tick hash parses f (some cand) (tick hash parses f (some cand) σ).2).1 =
      .noChange := by
  rcases hcase with ⟨hrun, hflags⟩ | hB | hC
  · rcases hrf : f.readRunningFails with _ | _ <;>
      simp [tick, get_checksum, hpull, hrun, hflags, hrf, hfresh]
  · simp [tick, hpull, hB]
  · have h2 : get_checksum hash σ.fs.running f.readRunningFails = none :=
      hfresh.symm.trans hC
    rcases hn : get_checksum hash (some cand) f.readCandidateFails with _ | n <;>
      simp [tick, hpull, hC, h2, hn]

/-- State for the C9 witness: running file `[0]` with fresh in-memory
fingerprint `"1"`, and the candidate identical to the running file. -/
def c9State : AgentState := ⟨⟨some [0], none, none, none⟩, some "1", none, [], 0⟩

/-- Witness for C9 at concrete inputs: identical running and candidate
content gives NoChange twice, with no e-mail, no validator call and an
untouched ledger. -/
theorem c9_comparing_identical_or_unobtainable_nochange_witness :
    (tick lenHash parsesShort noFaults (some [0]) c9State).1 = .noChange ∧
    (tick lenHash parsesShort noFaults (some [0]) c9State).2.emails = c9State.emails ∧
    (tick lenHash parsesShort noFaults (some [0]) c9State).2.validatorCalls =
      c9State.validatorCalls ∧
    (tick lenHash parsesShort noFaults (some [0]) c9State).2.fs.ledger =
      c9State.fs.ledger ∧
    (tick lenHash parsesShort noFaults (some [0])
        (tick lenHash parsesShort noFaults (some [0]) c9State).2).1 = .noChange :=
  c9_comparing_identical_or_unobtainable_nochange lenHash parsesShort noFaults
    c9State [0] rfl (by decide) (Or.inl ⟨rfl, rfl⟩)

/-! ### Claim C10 -/

/-- Faults for the C10 counterexample: opening the ledger file succeeds (and
truncates it), the write after it fails. -/
def c10Faults : Faults := { noFaults with ledgerWriteFails := true }

/-- State for the C10 counterexample: the ledger already holds the record
`"9"` (and `failed_checksum` was loaded from it at startup); the running file
is `[0]` and the invalid candidate `[0, 1]` has digest `"2"`. -/
def c10Start : AgentState := ⟨⟨some [0], none, none, some (.record (some "9"))⟩,
  some "1", some "9", [], 0⟩

/-- The C10 counterexample tick: the candidate is rejected and the ledger
write fails after the open. -/
def c10Tick : TickOutcome × AgentState :=
  tick lenHash parsesShort c10Faults (some [0, 1]) c10Start

/-- Claim C10, counterexample: on a failure during the ledger write the
on-disk ledger does not retain its previous content — `open(path, "w")` at
line 100 truncates the file before `json.dump` writes it, so a failure of the
dump leaves the ledger truncated or partially written (malformed), not the
prior record `"9"`; it then loads as `None`. -/
theorem c10_write_failure_truncates_ledger :
    c10Tick.1 = .rejected ∧
    c10Tick.2.fs.ledger = some .malformed ∧
    c10Tick.2.fs.ledger ≠ c10Start.fs.ledger ∧
    load_failed_update c10Tick.2.fs.ledger false = none := by
  decide

/-- Claim C10 as amended: saving to the ledger never raises to the supervisor
(the `except` at line 103 swallows every exception) and the tick proceeds
exactly as if the save had succeeded — the outcome and every non-ledger part
of the state are independent of the ledger fault flags.  If opening the
ledger file fails the prior on-disk content is retained, but a failure during
the write after a successful open leaves the ledger truncated or partially
written (malformed, loading as `None`), because the file is opened in
truncating write mode before the record is written. -/
theorem c10_save_never_raises_tick_proceeds (hash : Content → Fp)
    (parses : Content → Bool) (f : Faults) (remote : Option Content)
    (σ : AgentState) (b₁ b₂ : Bool) (fp : Fp) (prior : Option LedgerFile)
    (wf : Bool) :
    save_failed_update fp prior true wf = prior ∧
    save_failed_update fp prior false true = some .malformed ∧
    save_failed_update fp prior false false = some (.record (some fp)) ∧
    (tick hash parses { f with ledgerOpenFails := b₁, ledgerWriteFails := b₂ } remote σ).1 =
      (tick hash parses f remote σ).1 ∧
    (tick hash parses { f with ledgerOpenFails := b₁, ledgerWriteFails := b₂ } remote σ).2.currentChecksum =
      (tick hash parses f remote σ).2.currentChecksum ∧
    (tick hash parses { f with ledgerOpenFails := b₁, ledgerWriteFails := b₂ } remote σ).2.failedChecksum =
      (tick hash parses f remote σ).2.failedChecksum ∧
    (tick hash parses { f with ledgerOpenFails := b₁, ledgerWriteFails := b₂ } remote σ).2.emails =
      (tick hash parses f remote σ).2.emails ∧
    (tick hash parses { f with ledgerOpenFails := b₁, ledgerWriteFails := b₂ } remote σ).2.validatorCalls =
      (tick hash parses f remote σ).2.validatorCalls ∧
    (tick hash parses { f with ledgerOpenFails := b₁, ledgerWriteFails := b₂ } remote σ).2.fs.running =
      (tick hash parses f remote σ).2.fs.running ∧
    (tick hash parses { f with ledgerOpenFails := b₁, ledgerWriteFails := b₂ } remote σ).2.fs.candidate =
      (tick hash parses f remote σ).2.fs.candidate ∧
    (tick hash parses { f with ledgerOpenFails := b₁, ledgerWriteFails := b₂ } remote σ).2.fs.backup =
      (tick hash parses f remote σ).2.fs.backup := by
  refine ⟨rfl, rfl, rfl, ?_⟩
  by_cases hp : f.pullFails = true
  · simp [tick, hp]
  · simp only [Bool.not_eq_true] at hp
    rcases remote with _ | cand
    · simp [tick, hp]
    · rcases hn : get_checksum hash (some cand) f.readCandidateFails with _ | n
      · simp [tick, hp, hn]
      · rcases hc : σ.currentChecksum with _ | c
        · simp [tick, hp, hn, hc]
        · by_cases hne : n = c
          · simp [tick, hp, hn, hc, hne]
          · by_cases hf : some n = σ.failedChecksum
            · simp [tick, hp, hn, hc, hne, ← hf]
            · by_cases hv : is_valid_python parses (some cand) f.validateReadFails = true
              · rcases hrun : σ.fs.running with _ | r <;>
                  rcases hb : f.backupCopyFails <;>
                  rcases ha : f.applyCopyFails <;>
                  rcases he : f.execFails <;>
                  simp [tick, hp, hn, hc, hne, hf, hv, hrun, hb, ha, he]
              · simp only [Bool.not_eq_true] at hv
                simp [tick, hp, hn, hc, hne, hf, hv]

end SelfUpgradingClient
